import Mathlib

/-!
Verification of the mcrag backend workflow (sohv/mcrag).

Shallow embedding of `backend/models.py`, `backend/llm_services.py` and
`backend/review_workflow.py`.  Python strings are Lean `String`s (processed as
`List Char`); Python floats are modelled as exact rationals (`Rat`), built only
through `mkRat` so that every definition evaluates inside the kernel — every
float appearing in this code is a decimal constant or a parsed decimal, and all
comparisons the workflow performs on them are exact at these values.
Wall-clock fields (`processing_time`, `created_at`) are dropped: no control
flow depends on them.  Record ids (uuid4 in the source) are modelled as
naturals drawn from a per-run counter, which preserves exactly the property
the code relies on: freshness.
-/

namespace Mcrag

/-! ## String helpers (mirroring the Python string/regex primitives used) -/

/-- Python `str.lower()` restricted to ASCII, as a character map. -/
def lowerChar (c : Char) : Char := c.toLower

def lowerStr (s : String) : List Char := s.toList.map lowerChar

/-- Substring containment, `needle in hay` for Python strings. -/
def containsSub (needle : List Char) : List Char → Bool
  | [] => needle.isEmpty
  | c :: rest => needle.isPrefixOf (c :: rest) || containsSub needle rest

/-- First occurrence split: returns the part before the first occurrence of
`sep` and the part after it, or `none` when `sep` does not occur.  This is the
primitive behind the Python `str.split(sep)` uses below. -/
def breakOnSub (sep : List Char) : List Char → Option (List Char × List Char)
  | [] => none
  | c :: rest =>
    if sep.isPrefixOf (c :: rest) then some ([], (c :: rest).drop sep.length)
    else
      match breakOnSub sep rest with
      | some (pre, post) => some (c :: pre, post)
      | none => none

/-- Python `str.strip()` (whitespace from both ends). -/
def pyStrip (l : List Char) : List Char :=
  ((l.dropWhile Char.isWhitespace).reverse.dropWhile Char.isWhitespace).reverse

/-- Python `str.split(chr)` on a single character (used with newline). -/
def splitLines : List Char → List (List Char)
  | [] => [[]]
  | c :: rest =>
    if c = '\n' then [] :: splitLines rest
    else
      match splitLines rest with
      | [] => [[c]]
      | h :: t => (c :: h) :: t

/-- Numeric value of a list of decimal digit characters. -/
def digitsVal (l : List Char) : Nat :=
  l.foldl (fun a c => a * 10 + (c.toNat - 48)) 0

/-! ## ResponseParser: severity extraction (`llm_services.get_critic_review`)

Python: `re.search(r"severity[^\d]*(\d)", review_text.lower())`, guarded by
`"severity" in review_text.lower()`; default 3; result clamped to [1,5]. -/

def sevLit : List Char := "severity".toList

/-- Leftmost match of `severity[^\d]*(\d)` over an (already lowered) text:
the first position where the literal `severity` occurs and some digit follows
its end; the captured group is the first digit after that occurrence.  When
the literal occurs but no digit follows, the pattern fails at this start
position and the search moves right, exactly like `re.search`. -/
def sevSearch : List Char → Option Char
  | [] => none
  | c :: rest =>
    if sevLit.isPrefixOf (c :: rest) then
      match ((c :: rest).drop 8).find? (fun d => d.isDigit) with
      | some d => some d
      | none => sevSearch rest
    else sevSearch rest

/-- `int(...)` of the single captured digit. -/
def digitVal (c : Char) : Nat := c.toNat - 48

/-- Severity extraction from `get_critic_review`: default 3, single captured
digit clamped to [1,5] via `max(1, min(5, parsed_severity))`. -/
def extract_severity (reviewText : String) : Nat :=
  let low := lowerStr reviewText
  if containsSub sevLit low then
    match sevSearch low with
    | some d => max 1 (min 5 (digitVal d))
    | none => 3
  else 3

/-! ## ResponseParser: suggestion extraction (`llm_services.get_critic_review`) -/

/-- `line.startswith('- ') or line.startswith('* ')`. -/
def dashMarked (l : List Char) : Bool :=
  ("- ".toList).isPrefixOf l || ("* ".toList).isPrefixOf l

/-- `len(line) > 2 and line[0].isdigit() and line[1:3] in ['. ', ') ']`. -/
def numMarked (l : List Char) : Bool :=
  match l with
  | c1 :: c2 :: c3 :: _ => c1.isDigit && (c2 = '.' || c2 = ')') && c3 = ' '
  | _ => false

/-- Suggestion extraction: each line of the review is stripped, list-marked
lines contribute `line[2:]` (dash/star) or `line[3:]` (numbered). -/
def extract_suggestions (reviewText : String) : List String :=
  ((splitLines reviewText.toList).map pyStrip).filterMap (fun line =>
    if dashMarked line then some (String.mk (line.drop 2))
    else if numMarked line then some (String.mk (line.drop 3))
    else none)

/-! ## ResponseParser: score extraction (`llm_services.rank_reviews_and_plan`)

Python: `re.search(r"CRITIC 1 SCORE:\s*([0-9.]+)", response_text)` and the same
with `CRITIC 2`; missing marker defaults the score to 0.5; the matched group is
fed to `float(...)` — which can raise `ValueError` on inputs such as `..`,
escaping to the enclosing `except` — and then clamped to [0,1]. -/

def scoreMarker1 : List Char := "CRITIC 1 SCORE:".toList
def scoreMarker2 : List Char := "CRITIC 2 SCORE:".toList

def numChar (c : Char) : Bool := c.isDigit || c = '.'

/-- Leftmost match of `MARKER\s*([0-9.]+)`: the first occurrence of the marker
followed (after a maximal whitespace run) by at least one `[0-9.]` character;
the group is the maximal `[0-9.]` run there.  A backtracked shorter whitespace
run ends on a whitespace character, never a `[0-9.]` one, so greedy `\s*` with
this continuation has exactly this semantics. -/
def scoreToken (marker : List Char) : List Char → Option (List Char)
  | [] => none
  | c :: rest =>
    if marker.isPrefixOf (c :: rest) then
      let tok := (((c :: rest).drop marker.length).dropWhile Char.isWhitespace).takeWhile numChar
      if tok.isEmpty then scoreToken marker rest else some tok
    else scoreToken marker rest

/-- Python `float(tok)` for a token drawn from `[0-9.]+`: accepted iff it has
at most one dot and at least one digit; value is the exact decimal it denotes
(written as a single `mkRat` to stay kernel-computable). -/
def pyFloatOfToken (tok : List Char) : Option Rat :=
  if tok.count '.' ≤ 1 && tok.any Char.isDigit then
    let ip := tok.takeWhile Char.isDigit
    let fp := (tok.dropWhile Char.isDigit).drop 1
    some (mkRat (digitsVal ip * 10 ^ fp.length + digitsVal fp) (10 ^ fp.length))
  else none

/-- `max(0.0, min(1.0, x))`. -/
def clamp01 (x : Rat) : Rat := max (mkRat 0 1) (min (mkRat 1 1) x)

/-! ## ResponseParser: explanation/plan split (`llm_services.rank_reviews_and_plan`)

Python: `parts = response_text.split('INCORPORATION PLAN:')`;
`explanation = parts[0].replace('RANKING EXPLANATION:', '').strip()`;
`plan = parts[1].strip() if len(parts) > 1 else "No specific plan provided"`.
Only `parts[0]` and `parts[1]` are consumed, so the split is embedded as: the
text before the first marker occurrence, and the text between the first and
second occurrences (or to the end). -/

def planMarker : List Char := "INCORPORATION PLAN:".toList
def rankingLabel : List Char := "RANKING EXPLANATION:".toList

def splitPlanParts (t : List Char) : List Char × Option (List Char) :=
  match breakOnSub planMarker t with
  | none => (t, none)
  | some (pre, post) =>
    match breakOnSub planMarker post with
    | none => (pre, some post)
    | some (mid, _) => (pre, some mid)

/-- `str.replace(old, '')` for all occurrences, fuelled by the text length
(each removal consumes at least one character of the text, so the fuel is
sufficient). -/
def removeSubAux (sep : List Char) : Nat → List Char → List Char
  | 0, l => l
  | n + 1, l =>
    match breakOnSub sep l with
    | none => l
    | some (pre, post) => pre ++ removeSubAux sep n post

def removeRankingLabel (l : List Char) : List Char :=
  removeSubAux rankingLabel l.length l

/-! ## Data model (`backend/models.py`)

Field defaults mirror the pydantic defaults. -/

inductive GenerationStatus
  | pending
  | generating
  | reviewing
  | refining
  | completed
  | failed
deriving DecidableEq, Repr

inductive FeedbackType
  | generator
  | critic1
  | critic2
  | refinement
deriving DecidableEq, Repr

structure CodeGenerationRequest where
  id : Nat
  session_id : Nat
  user_prompt : String
  status : GenerationStatus := .pending
deriving DecidableEq, Repr

structure GeneratedCode where
  id : Nat
  request_id : Nat
  session_id : Nat
  generated_code : String
  explanation : String
  version : Nat := 1
deriving DecidableEq, Repr

structure CriticReview where
  id : Nat
  session_id : Nat
  code_id : Nat
  critic_type : FeedbackType
  llm_model : String
  review_text : String
  suggestions : List String
  severity_rating : Nat
  confidence_score : Rat
deriving DecidableEq, Repr

structure ReviewRanking where
  id : Nat
  session_id : Nat
  code_id : Nat
  critic1_review_id : Nat
  critic2_review_id : Nat
  ranking_explanation : String
  critic1_score : Rat
  critic2_score : Rat
  incorporation_plan : String
deriving DecidableEq, Repr

structure CodeGenerationSession where
  id : Nat
  request_id : Nat
  current_code_id : Option Nat := none
  critic1_review_id : Option Nat := none
  critic2_review_id : Option Nat := none
  ranking_id : Option Nat := none
  refinement_iterations : Nat := 0
  max_iterations : Nat := 3
  status : GenerationStatus := .pending
deriving DecidableEq, Repr

/-! ## LLM service results (`backend/llm_services.py`)

The actual model invocation is external; each service call is parametrised by
its outcome: either the free text the model produced, or the exception message
the underlying call raised.  The service functions below are the pure rest of
the Python functions: they never raise — every failure is turned into the
documented sentinel value. -/

inductive CriticOutcome
  | ok (reviewText : String)
  | err (msg : String)
deriving DecidableEq, Repr

inductive RankOutcome
  | ok (responseText : String)
  | err (msg : String)
deriving DecidableEq, Repr

structure CriticResult where
  reviewText : String
  suggestions : List String
  severity : Nat
  confidence : Rat
deriving DecidableEq, Repr

/-- `LLMService.get_critic_review` (minus wall-clock timing).  On success:
suggestions capped at 5, severity extracted with default 3 and clamp [1,5],
confidence `min(0.9, len(review_text)/1000 + 0.3)` (written as one `mkRat`:
`len/1000 + 3/10 = (len + 300)/1000`).  On any exception: review text
`"Error during review: " + msg`, no suggestions, severity 5, confidence 0.1. -/
def get_critic_review (outcome : CriticOutcome) : CriticResult :=
  match outcome with
  | .ok t =>
    { reviewText := t
      suggestions := (extract_suggestions t).take 5
      severity := extract_severity t
      confidence := min (mkRat 9 10) (mkRat (t.toList.length + 300) 1000) }
  | .err m =>
    { reviewText := "Error during review: " ++ m
      suggestions := []
      severity := 5
      confidence := mkRat 1 10 }

structure RankResult where
  explanation : String
  critic1_score : Rat
  critic2_score : Rat
  plan : String
deriving DecidableEq, Repr

/-- The fixed failure value of `rank_reviews_and_plan`
(`except` branch: explanation `"Error during ranking: " + str(e)`,
scores 0.1/0.1, fixed plan string). -/
def rankFailResult (m : String) : RankResult :=
  { explanation := "Error during ranking: " ++ m
    critic1_score := mkRat 1 10
    critic2_score := mkRat 1 10
    plan := "Unable to create incorporation plan - stopping refinement" }

/-- The Python `str(ValueError)` text raised by `float(tok)` on a token from
`[0-9.]+` that is not a valid float (quotes around the token elided). -/
def floatErrMsg (tok : List Char) : String :=
  "could not convert string to float: " ++ String.mk tok

/-- One critic score before clamping: `float(match.group(1)) if match else
0.5`, the `ValueError` of `float` modelled as `Except.error`. -/
def scoreOfMarker (marker : List Char) (t : List Char) : Except String Rat :=
  match scoreToken marker t with
  | some tok =>
    match pyFloatOfToken tok with
    | some v => Except.ok v
    | none => Except.error (floatErrMsg tok)
  | none => Except.ok (mkRat 1 2)

/-- Score extraction inside the `try` block of `rank_reviews_and_plan`:
missing marker defaults that score to 0.5; a matched token is passed to
`float`, whose `ValueError` escapes to the enclosing handler (modelled as
`Except.error`); both scores are then clamped to [0,1]. -/
def extract_scores (t : List Char) : Except String (Rat × Rat) := do
  let s1 ← scoreOfMarker scoreMarker1 t
  let s2 ← scoreOfMarker scoreMarker2 t
  Except.ok (clamp01 s1, clamp01 s2)

/-- The `try` body of `rank_reviews_and_plan` applied to the model response
text: extract both scores, then split explanation and plan; an internal
`ValueError` lands in the `except` branch. -/
def rankFromResponse (responseText : String) : RankResult :=
  let t := responseText.toList
  match extract_scores t with
  | .error m => rankFailResult m
  | .ok (s1, s2) =>
    let parts := splitPlanParts t
    { explanation := String.mk (pyStrip (removeRankingLabel parts.1))
      critic1_score := s1
      critic2_score := s2
      plan :=
        match parts.2 with
        | some p => String.mk (pyStrip p)
        | none => "No specific plan provided" }

/-- `LLMService.rank_reviews_and_plan` as a function of the model-call
outcome; total (no-throw convention). -/
def rank_reviews_and_plan (outcome : RankOutcome) : RankResult :=
  match outcome with
  | .ok t => rankFromResponse t
  | .err m => rankFailResult m

/-! ## WorkflowOrchestrator (`backend/review_workflow.py`)

The Redis store is modelled inside the state: each record list holds, newest
first, exactly the records `setex` has written (records are only ever created,
never overwritten, matching the uuid-keyed writes of the source).
`sessionLog` records every persisted session snapshot, newest first.  The one
shared `request:{id}` record is the `request` field, updated at every write.
The only operations that can raise inside the cycle are the store reads in
`_refine_code` (`from_json(None)` on a missing key); they surface as
`Except.error` carrying the state at the point of failure, mirroring an
exception escaping to `start_generation`. -/

structure WorldState where
  session : CodeGenerationSession
  request : CodeGenerationRequest
  codes : List GeneratedCode
  reviews : List CriticReview
  rankings : List ReviewRanking
  sessionLog : List CodeGenerationSession
  nextId : Nat
deriving DecidableEq, Repr

inductive WorkflowError
  | storeMiss
deriving DecidableEq, Repr

/-- Inputs one loop iteration consumes from the external agents:
the generator response (already split into code and explanation by
`get_generator_response`, which never raises), and the raw outcomes of the two
critic calls and the ranking call. -/
structure IterInput where
  genCode : String
  genExpl : String
  critic1 : CriticOutcome
  critic2 : CriticOutcome
  ranking : RankOutcome
deriving DecidableEq, Repr

def persist_session (w : WorldState) : WorldState :=
  { w with sessionLog := w.session :: w.sessionLog }

/-- The paired `session.status = st; request.status = st` writes. -/
def set_status_both (w : WorldState) (st : GenerationStatus) : WorldState :=
  { w with session := { w.session with status := st },
           request := { w.request with status := st } }

def find_code (codes : List GeneratedCode) (cid : Nat) : Option GeneratedCode :=
  codes.find? (fun c => c.id == cid)

def find_review (reviews : List CriticReview) (rid : Nat) : Option CriticReview :=
  reviews.find? (fun r => r.id == rid)

def find_ranking (rankings : List ReviewRanking) (rid : Nat) : Option ReviewRanking :=
  rankings.find? (fun r => r.id == rid)

/-- `await self.redis.get(f"code:{session.current_code_id}")` followed by
deserialisation: a missing key (or a `None` id) raises. -/
def read_current_code (w : WorldState) : Except (WorkflowError × WorldState) GeneratedCode :=
  match w.session.current_code_id with
  | none => .error (.storeMiss, w)
  | some cid =>
    match find_code w.codes cid with
    | some c => .ok c
    | none => .error (.storeMiss, w)

def read_ranking (w : WorldState) : Except (WorkflowError × WorldState) ReviewRanking :=
  match w.session.ranking_id with
  | none => .error (.storeMiss, w)
  | some rid =>
    match find_ranking w.rankings rid with
    | some r => .ok r
    | none => .error (.storeMiss, w)

def read_review (w : WorldState) (oid : Option Nat) : Except (WorkflowError × WorldState) CriticReview :=
  match oid with
  | none => .error (.storeMiss, w)
  | some rid =>
    match find_review w.reviews rid with
    | some r => .ok r
    | none => .error (.storeMiss, w)

def genErrorSentinel : List Char := "# Error generating code".toList

/-- `_generate_initial_code`: builds and persists the version-1 artifact; a
generator failure only relabels the explanation. -/
def generate_initial_code (w : WorldState) (inp : IterInput) : WorldState × GeneratedCode :=
  let expl :=
    if genErrorSentinel.isPrefixOf inp.genCode.toList
    then "GENERATION FAILED: " ++ inp.genExpl
    else inp.genExpl
  let code : GeneratedCode :=
    { id := w.nextId, request_id := w.request.id, session_id := w.session.id,
      generated_code := inp.genCode, explanation := expl, version := 1 }
  ({ w with codes := code :: w.codes, nextId := w.nextId + 1 }, code)

/-- `_refine_code`: reads the current artifact, the latest ranking and both
reviews from the store (all only feed the refinement prompt, except the
current version), then builds and persists the next artifact with
`version = current_code.version + 1`. -/
def refine_code (w : WorldState) (inp : IterInput) : Except (WorkflowError × WorldState) (WorldState × GeneratedCode) := do
  let current ← read_current_code w
  let _ranking ← read_ranking w
  let _review1 ← read_review w w.session.critic1_review_id
  let _review2 ← read_review w w.session.critic2_review_id
  let expl :=
    if genErrorSentinel.isPrefixOf inp.genCode.toList
    then "REFINEMENT FAILED: " ++ inp.genExpl
    else inp.genExpl
  let code : GeneratedCode :=
    { id := w.nextId, request_id := w.request.id, session_id := w.session.id,
      generated_code := inp.genCode, explanation := expl,
      version := current.version + 1 }
  .ok ({ w with codes := code :: w.codes, nextId := w.nextId + 1 }, code)

/-- `_get_critic_review`: wraps the service result into a persisted
`CriticReview` record (the request read it performs always succeeds: the
request record is written before the cycle starts and at every transition). -/
def make_critic_review (rid : Nat) (code : GeneratedCode) (ctype : FeedbackType)
    (modelName : String) (outcome : CriticOutcome) : CriticReview :=
  let res := get_critic_review outcome
  { id := rid, session_id := code.session_id, code_id := code.id,
    critic_type := ctype, llm_model := modelName,
    review_text := res.reviewText, suggestions := res.suggestions,
    severity_rating := res.severity, confidence_score := res.confidence }

/-- `_should_stop_refinement`: the three stop conditions in source order. -/
def should_stop_refinement (ranking : ReviewRanking) (session : CodeGenerationSession) : Bool :=
  if session.max_iterations - 1 ≤ session.refinement_iterations then true
  else if containsSub ("Error during ranking".toList) ranking.ranking_explanation.toList then true
  else if ranking.critic1_score < mkRat 3 10 ∧ ranking.critic2_score < mkRat 3 10 then true
  else false

/-! Steps 2-4 of one loop body of `_run_generation_cycle` (everything after
the generate/refine step): review fan-out, ranking, stop check.  This part is
straight-line code with no store reads, hence total.  Its successive states
are named after their place in the source: `w1` is the state right after the
new artifact was persisted, and record ids continue from `w1.nextId` (the two
critic reviews take the next two fresh ids, the ranking the third). -/

/-- The critic-1 review record of the iteration (`gpt-4o`). -/
def iterR1 (w1 : WorldState) (code : GeneratedCode) (inp : IterInput) : CriticReview :=
  make_critic_review w1.nextId code .critic1 "gpt-4o" inp.critic1

/-- The critic-2 review record of the iteration (`deepseek-r1`). -/
def iterR2 (w1 : WorldState) (code : GeneratedCode) (inp : IterInput) : CriticReview :=
  make_critic_review (w1.nextId + 1) code .critic2 "deepseek-r1" inp.critic2

/-- The ranking record `_rank_and_plan_refinement` builds and persists. -/
def iterRanking (w1 : WorldState) (code : GeneratedCode) (inp : IterInput) : ReviewRanking :=
  let rres := rank_reviews_and_plan inp.ranking
  { id := w1.nextId + 2, session_id := code.session_id, code_id := code.id,
    critic1_review_id := (iterR1 w1 code inp).id,
    critic2_review_id := (iterR2 w1 code inp).id,
    ranking_explanation := rres.explanation,
    critic1_score := rres.critic1_score, critic2_score := rres.critic2_score,
    incorporation_plan := rres.plan }

/-- The session as persisted with status REVIEWING (step 2): the fresh
artifact id is recorded, review and ranking ids still belong to the previous
iteration. -/
def iterSessionReviewing (w1 : WorldState) (code : GeneratedCode) : CodeGenerationSession :=
  { w1.session with current_code_id := some code.id, status := .reviewing }

/-- The session as persisted with status REFINING (step 3): both fresh review
ids recorded. -/
def iterSessionRefining (w1 : WorldState) (code : GeneratedCode) (inp : IterInput) : CodeGenerationSession :=
  { iterSessionReviewing w1 code with
      critic1_review_id := some (iterR1 w1 code inp).id,
      critic2_review_id := some (iterR2 w1 code inp).id,
      status := .refining }

/-- The in-memory state at the stop check: reviews and ranking persisted,
`session.ranking_id` set. -/
def iterW8 (w1 : WorldState) (code : GeneratedCode) (inp : IterInput) : WorldState :=
  { w1 with
    session := { iterSessionRefining w1 code inp with
                   ranking_id := some (iterRanking w1 code inp).id }
    request := { w1.request with status := .refining }
    reviews := iterR2 w1 code inp :: iterR1 w1 code inp :: w1.reviews
    rankings := iterRanking w1 code inp :: w1.rankings
    sessionLog := iterSessionRefining w1 code inp :: iterSessionReviewing w1 code
                    :: w1.sessionLog
    nextId := w1.nextId + 3 }

/-- Steps 2-4 composed: persist REVIEWING (session and request), run both
critic calls and persist their reviews, persist REFINING, build and persist
the ranking, record its id, then the stop check: on stop persist COMPLETED on
session and request and `break`; otherwise increment
`refinement_iterations`, set both statuses back to GENERATING, persist, and
loop. -/
def iteration_rest (w1 : WorldState) (code : GeneratedCode) (inp : IterInput) : WorldState × Bool :=
  let w8 := iterW8 w1 code inp
  if should_stop_refinement (iterRanking w1 code inp) w8.session then
    (persist_session (set_status_both w8 .completed), true)
  else
    (persist_session
      { w8 with
        session := { w8.session with
          refinement_iterations := w8.session.refinement_iterations + 1,
          status := .generating },
        request := { w8.request with status := .generating } }, false)

/-- One body of the `while` loop of `_run_generation_cycle`: generate or
refine, then `iteration_rest`. -/
def run_iteration (w0 : WorldState) (inp : IterInput) : Except (WorkflowError × WorldState) (WorldState × Bool) :=
  let gen : Except (WorkflowError × WorldState) (WorldState × GeneratedCode) :=
    match w0.session.current_code_id with
    | none => .ok (generate_initial_code w0 inp)
    | some _ => refine_code w0 inp
  match gen with
  | .error e => .error e
  | .ok (w1, code) => .ok (iteration_rest w1 code inp)

/-- The `while session.refinement_iterations < session.max_iterations` loop,
fuelled: the loop is entered with `fuel = max_iterations -
refinement_iterations`, every continuing iteration increments the counter by
exactly one and never touches `max_iterations`, so `fuel = 0` holds exactly
when the loop guard fails.  `env k` supplies the agent outcomes of the
iteration running with `refinement_iterations = k`. -/
def run_loop (env : Nat → IterInput) : Nat → WorldState → Except (WorkflowError × WorldState) WorldState
  | 0, w => .ok w
  | fuel + 1, w =>
    match run_iteration w (env w.session.refinement_iterations) with
    | .error e => .error e
    | .ok (w2, stopped) =>
      if stopped then .ok w2 else run_loop env fuel w2

/-- `_run_generation_cycle`: the loop, then the unconditional completion of a
session the loop left non-terminal (refinement exhaustion). -/
def run_generation_cycle (env : Nat → IterInput) (w : WorldState) : Except (WorkflowError × WorldState) WorldState :=
  match run_loop env (w.session.max_iterations - w.session.refinement_iterations) w with
  | .error e => .error e
  | .ok w2 =>
    .ok (if w2.session.status = GenerationStatus.completed then w2
         else persist_session (set_status_both w2 .completed))

/-- The `except` branch of `start_generation` (lines 53-59): mark both the
session and the request `failed`, persist them, and re-raise the error. -/
def failure_handler (w : WorldState) (e : WorkflowError) : WorldState × WorkflowError :=
  (persist_session (set_status_both w .failed), e)

/-- The initial state `start_generation` builds and persists before the cycle:
a fresh session (pydantic defaults: no records, 0 iterations, max 3) with
status `generating`, the request linked to it with the same status.  The
request id and session id are the first two fresh ids of the run. -/
def initial_world (userPrompt : String) : WorldState :=
  let session : CodeGenerationSession :=
    { id := 1, request_id := 0, status := .generating }
  { session := session
    request := { id := 0, session_id := 1, user_prompt := userPrompt, status := .generating }
    codes := [], reviews := [], rankings := []
    sessionLog := [session]
    nextId := 2 }

/-- `start_generation`: run the cycle; on success return the final state, on
an escaping error run the failure handler and propagate the error. -/
def start_generation (env : Nat → IterInput) (userPrompt : String) : WorldState × Option WorkflowError :=
  match run_generation_cycle env (initial_world userPrompt) with
  | .ok w => (w, none)
  | .error (e, wf) =>
    let h := failure_handler wf e
    (h.1, some h.2)

/-! ## ConsensusAnalyzer -/

structure ConflictAnalysis where
  conflicts : List String
  strategy : String
  decision : String
  confidence : Rat
deriving DecidableEq, Repr

/-- Modelled from the spec: the ConsensusAnalyzer is not present under the
backend sources; only its output fields appear in callers.  This definition
follows the specification text: each critic text is scanned for a fixed
keyword set, each hit produces one named conflict entry, the conflict count
maps to the documented confidence and decision, and the strategy is the fixed
label. -/
def disagreement_keywords : List String :=
  ["wrong", "incorrect", "disagree", "however", "but", "actually", "instead"]

/-- Modelled from the spec: keyword scan of one critic text. -/
def has_disagreement (t : String) : Bool :=
  disagreement_keywords.any (fun k => containsSub k.toList (lowerStr t))

/-- Modelled from the spec: `AnalyzeConflicts(coderText, critic1Text,
critic2Text)` of §4.4 of the specification (the coder text is carried but the
conflicts are keyword hits in the critic texts). -/
def analyze_conflicts (_coderText critic1Text critic2Text : String) : ConflictAnalysis :=
  let conflicts :=
    (if has_disagreement critic1Text then ["critic1 disagrees with the generator"] else []) ++
    (if has_disagreement critic2Text then ["critic2 disagrees with the generator"] else [])
  { conflicts := conflicts
    strategy := "consensus_based"
    decision :=
      if conflicts.length = 0 then "general agreement, follow generator with minor adjustments"
      else if conflicts.length = 1 then "mixed feedback, prioritize generator but weigh critic input"
      else "significant disagreement, recommend human review"
    confidence :=
      if conflicts.length = 0 then mkRat 9 10
      else if conflicts.length = 1 then mkRat 7 10
      else mkRat 5 10 }

/-! ## Helper lemmas about the string scanners -/

lemma containsSub_of_isPrefixOf {needle hay : List Char}
    (h : needle.isPrefixOf hay = true) : containsSub needle hay = true := by
  cases hay with
  | nil =>
    cases needle with
    | nil => rfl
    | cons c t => simp [List.isPrefixOf] at h
  | cons c rest => simp [containsSub, h]

/-- `containsSub` agrees with occurrence-at-some-offset. -/
lemma containsSub_iff (needle hay : List Char) :
    containsSub needle hay = true ↔ ∃ i, needle.isPrefixOf (hay.drop i) = true := by
  induction hay with
  | nil =>
    simp only [containsSub, List.drop_nil]
    constructor
    · intro h
      exact ⟨0, by cases needle with
        | nil => rfl
        | cons c t => simp [List.isEmpty] at h⟩
    · rintro ⟨i, hi⟩
      cases needle with
      | nil => rfl
      | cons c t => simp [List.isPrefixOf] at hi
  | cons c rest ih =>
    simp only [containsSub, Bool.or_eq_true]
    constructor
    · rintro (h | h)
      · exact ⟨0, h⟩
      · obtain ⟨i, hi⟩ := ih.mp h
        exact ⟨i + 1, by simpa using hi⟩
    · rintro ⟨i, hi⟩
      cases i with
      | zero => exact Or.inl hi
      | succ j => exact Or.inr (ih.mpr ⟨j, by simpa using hi⟩)

/-- Declarative reading of the severity pattern: some occurrence of the
(lowered) literal `severity` is followed, anywhere after its end, by a digit.
This is exactly when `re.search(r"severity[^\d]*(\d)", text)` matches. -/
def HasSevDigit (l : List Char) : Prop :=
  ∃ i, sevLit.isPrefixOf (l.drop i) = true ∧
    ((l.drop i).drop 8).any Char.isDigit = true

lemma hasSevDigit_shift {c : Char} {rest : List Char}
    (h : HasSevDigit rest) : HasSevDigit (c :: rest) := by
  obtain ⟨j, h1, h2⟩ := h
  exact ⟨j + 1, by simpa using h1, by simpa using h2⟩

lemma sevSearch_eq_none_iff (l : List Char) :
    sevSearch l = none ↔ ¬ HasSevDigit l := by
  induction l with
  | nil =>
    constructor
    · rintro - ⟨i, h1, h2⟩
      rw [List.drop_nil] at h1
      exact absurd h1 (by decide)
    · intro _
      rfl
  | cons c rest ih =>
    constructor
    · intro hnone
      rintro ⟨i, h1, h2⟩
      cases i with
      | zero =>
        rw [List.drop_zero] at h1 h2
        obtain ⟨d, hd, hdig⟩ := List.any_eq_true.mp h2
        have hfind : ((c :: rest).drop 8).find? (fun d => d.isDigit) ≠ none := by
          intro hn
          exact absurd hdig (by simpa using List.find?_eq_none.mp hn d hd)
        rw [sevSearch, if_pos h1] at hnone
        cases hfound : ((c :: rest).drop 8).find? (fun d => d.isDigit) with
        | none => exact hfind hfound
        | some d0 => rw [hfound] at hnone; exact Option.some_ne_none d0 hnone
      | succ j =>
        have hrest : HasSevDigit rest :=
          ⟨j, by simpa using h1, by simpa using h2⟩
        have hrn : sevSearch rest = none := by
          rw [sevSearch] at hnone
          by_cases hp : sevLit.isPrefixOf (c :: rest) = true
          · rw [if_pos hp] at hnone
            cases hfound : ((c :: rest).drop 8).find? (fun d => d.isDigit) with
            | none => rwa [hfound] at hnone
            | some d0 => rw [hfound] at hnone; exact absurd hnone (Option.some_ne_none d0)
          · rwa [if_neg hp] at hnone
        exact (ih.mp hrn) hrest
    · intro hnot
      rw [sevSearch]
      by_cases hp : sevLit.isPrefixOf (c :: rest) = true
      · rw [if_pos hp]
        cases hfound : ((c :: rest).drop 8).find? (fun d => d.isDigit) with
        | some d0 =>
          exfalso
          refine hnot ⟨0, by simpa using hp, ?_⟩
          simp only [List.drop_zero]
          exact List.any_eq_true.mpr
            ⟨d0, List.mem_of_find?_eq_some hfound, List.find?_some hfound⟩
        | none =>
          exact ih.mpr (fun hrest => hnot (hasSevDigit_shift hrest))
      · rw [if_neg hp]
        exact ih.mpr (fun hrest => hnot (hasSevDigit_shift hrest))

lemma sevSearch_some_contains {l : List Char} {d : Char}
    (h : sevSearch l = some d) : containsSub sevLit l = true := by
  induction l with
  | nil => exact absurd h (by simp [sevSearch])
  | cons c rest ih =>
    rw [sevSearch] at h
    by_cases hp : sevLit.isPrefixOf (c :: rest) = true
    · simp [containsSub, hp]
    · rw [if_neg hp] at h
      simp [containsSub, ih h]

lemma extract_severity_of_none {s : String}
    (h : sevSearch (lowerStr s) = none) : extract_severity s = 3 := by
  unfold extract_severity
  by_cases hc : containsSub sevLit (lowerStr s) = true
  · simp [hc, h]
  · simp [Bool.not_eq_true] at hc
    simp [hc]

lemma extract_severity_of_some {s : String} {d : Char}
    (h : sevSearch (lowerStr s) = some d) :
    extract_severity s = max 1 (min 5 (digitVal d)) := by
  unfold extract_severity
  simp [sevSearch_some_contains h, h]

/-! ## Helper lemmas about the workflow step -/

lemma should_stop_false_first {rk : ReviewRanking} {sess : CodeGenerationSession}
    (h : should_stop_refinement rk sess = false) :
    sess.refinement_iterations < sess.max_iterations - 1 := by
  unfold should_stop_refinement at h
  by_cases h1 : sess.max_iterations - 1 ≤ sess.refinement_iterations
  · rw [if_pos h1] at h
    exact absurd h (by simp)
  · omega

/-- Everything `iteration_rest` does, in one statement: the records it
creates, the store growth, the session fields it sets, the three snapshots it
persists, and the two outcomes of the stop check. -/
lemma iteration_rest_spec (w1 : WorldState) (code : GeneratedCode) (inp : IterInput) :
    ∃ r1 r2 rk s1 s2,
      r1 = make_critic_review w1.nextId code FeedbackType.critic1 "gpt-4o" inp.critic1 ∧
      r2 = make_critic_review (w1.nextId + 1) code FeedbackType.critic2 "deepseek-r1" inp.critic2 ∧
      rk.critic1_review_id = r1.id ∧
      rk.critic2_review_id = r2.id ∧
      rk.session_id = code.session_id ∧
      rk.code_id = code.id ∧
      rk.ranking_explanation = (rank_reviews_and_plan inp.ranking).explanation ∧
      rk.critic1_score = (rank_reviews_and_plan inp.ranking).critic1_score ∧
      rk.critic2_score = (rank_reviews_and_plan inp.ranking).critic2_score ∧
      rk.incorporation_plan = (rank_reviews_and_plan inp.ranking).plan ∧
      (iteration_rest w1 code inp).1.codes = w1.codes ∧
      (iteration_rest w1 code inp).1.reviews = r2 :: r1 :: w1.reviews ∧
      (iteration_rest w1 code inp).1.rankings = rk :: w1.rankings ∧
      (iteration_rest w1 code inp).1.session.current_code_id = some code.id ∧
      (iteration_rest w1 code inp).1.session.critic1_review_id = some r1.id ∧
      (iteration_rest w1 code inp).1.session.critic2_review_id = some r2.id ∧
      (iteration_rest w1 code inp).1.session.ranking_id = some rk.id ∧
      (iteration_rest w1 code inp).1.session.max_iterations = w1.session.max_iterations ∧
      (iteration_rest w1 code inp).1.sessionLog
        = (iteration_rest w1 code inp).1.session :: s2 :: s1 :: w1.sessionLog ∧
      s1.status = GenerationStatus.reviewing ∧
      s1.refinement_iterations = w1.session.refinement_iterations ∧
      s1.max_iterations = w1.session.max_iterations ∧
      s2.status = GenerationStatus.refining ∧
      s2.refinement_iterations = w1.session.refinement_iterations ∧
      s2.max_iterations = w1.session.max_iterations ∧
      (iteration_rest w1 code inp).2
        = should_stop_refinement rk (iterW8 w1 code inp).session ∧
      ((iteration_rest w1 code inp).2 = true ∧
        (iteration_rest w1 code inp).1.session.status = GenerationStatus.completed ∧
        (iteration_rest w1 code inp).1.request.status = GenerationStatus.completed ∧
        (iteration_rest w1 code inp).1.session.refinement_iterations
          = w1.session.refinement_iterations
       ∨
       (iteration_rest w1 code inp).2 = false ∧
        (iteration_rest w1 code inp).1.session.status = GenerationStatus.generating ∧
        (iteration_rest w1 code inp).1.request.status = GenerationStatus.generating ∧
        (iteration_rest w1 code inp).1.session.refinement_iterations
          = w1.session.refinement_iterations + 1 ∧
        w1.session.refinement_iterations < w1.session.max_iterations - 1) := by
  refine ⟨iterR1 w1 code inp, iterR2 w1 code inp, iterRanking w1 code inp,
          iterSessionReviewing w1 code, iterSessionRefining w1 code inp, ?_⟩
  cases hstop : should_stop_refinement (iterRanking w1 code inp) (iterW8 w1 code inp).session with
  | true =>
    have he : iteration_rest w1 code inp
        = (persist_session (set_status_both (iterW8 w1 code inp) .completed), true) := by
      simp only [iteration_rest, hstop, if_true]
    rw [he]
    exact ⟨rfl, rfl, rfl, rfl, rfl, rfl, rfl, rfl, rfl, rfl, rfl, rfl, rfl, rfl,
           rfl, rfl, rfl, rfl, rfl, rfl, rfl, rfl, rfl, rfl, rfl, rfl,
           Or.inl ⟨rfl, rfl, rfl, rfl⟩⟩
  | false =>
    have he : iteration_rest w1 code inp
        = (persist_session
            { iterW8 w1 code inp with
              session := { (iterW8 w1 code inp).session with
                refinement_iterations := (iterW8 w1 code inp).session.refinement_iterations + 1,
                status := .generating },
              request := { (iterW8 w1 code inp).request with status := .generating } }, false) := by
      simp only [iteration_rest, hstop]
      rfl
    rw [he]
    exact ⟨rfl, rfl, rfl, rfl, rfl, rfl, rfl, rfl, rfl, rfl, rfl, rfl, rfl, rfl,
           rfl, rfl, rfl, rfl, rfl, rfl, rfl, rfl, rfl, rfl, rfl, rfl,
           Or.inr ⟨rfl, rfl, rfl, rfl, should_stop_false_first hstop⟩⟩

lemma make_critic_review_id (rid : Nat) (code : GeneratedCode) (ctype : FeedbackType)
    (m : String) (o : CriticOutcome) : (make_critic_review rid code ctype m o).id = rid := rfl

/-- The invariant holding at every loop entry of `_run_generation_cycle`:
every persisted non-terminal session snapshot respects the iteration bound,
artifact versions so far are `1, …, n` in creation order with the newest one
on top of the store and referenced by `current_code_id`, the session and
request statuses track each other on completion, and after the first
iteration the ids recorded in the session resolve in the store. -/
structure LoopInv (w : WorldState) : Prop where
  log_ok : ∀ s ∈ w.sessionLog, s.status ≠ GenerationStatus.completed →
    s.status ≠ GenerationStatus.failed →
    s.refinement_iterations < s.max_iterations
  versions_ok : w.codes.reverse.map GeneratedCode.version = List.range' 1 w.codes.length
  head_version : ∀ c rest, w.codes = c :: rest → c.version = w.codes.length
  sync : w.session.status = GenerationStatus.completed →
    w.request.status = GenerationStatus.completed
  cur_none : w.session.current_code_id = none → w.codes = []
  cur_some : ∀ cid, w.session.current_code_id = some cid →
    (∃ c rest, w.codes = c :: rest ∧ c.id = cid) ∧
    (∃ r rrest, w.rankings = r :: rrest ∧ w.session.ranking_id = some r.id) ∧
    (∃ r2 r1 vrest, w.reviews = r2 :: r1 :: vrest ∧
      w.session.critic1_review_id = some r1.id ∧
      w.session.critic2_review_id = some r2.id ∧ r1.id ≠ r2.id)

/-- Step 1 of the loop body never fails under the invariant, and produces the
next artifact: version `previous + 1` (or 1 initially, the store being empty
then), fresh id, everything else untouched. -/
lemma gen_step_spec (w : WorldState) (inp : IterInput) (hInv : LoopInv w) :
    ∃ w1 code,
      run_iteration w inp = .ok (iteration_rest w1 code inp) ∧
      w1.codes = code :: w.codes ∧
      code.version = w.codes.length + 1 ∧
      code.id = w.nextId ∧
      w1.session = w.session ∧ w1.request = w.request ∧
      w1.reviews = w.reviews ∧ w1.rankings = w.rankings ∧
      w1.sessionLog = w.sessionLog ∧ w1.nextId = w.nextId + 1 := by
  cases hcid : w.session.current_code_id with
  | none =>
    refine ⟨(generate_initial_code w inp).1, (generate_initial_code w inp).2,
            ?_, rfl, ?_, rfl, rfl, rfl, rfl, rfl, rfl, rfl⟩
    · simp only [run_iteration, hcid]
    · rw [hInv.cur_none hcid]
      rfl
  | some cid =>
    obtain ⟨⟨c, rest, hcodes, hcid_eq⟩, ⟨r, rrest, hrk, hrkid⟩,
            ⟨r2, r1, vrest, hrevs, hid1, hid2, hne⟩⟩ := hInv.cur_some cid hcid
    have hfind : find_code w.codes cid = some c := by
      rw [hcodes, find_code, List.find?_cons_of_pos _ (by simp [hcid_eq])]
    have hrcc : read_current_code w = .ok c := by
      simp only [read_current_code, hcid, hfind]
    have hfr : find_ranking w.rankings r.id = some r := by
      rw [hrk, find_ranking, List.find?_cons_of_pos _ (by simp)]
    have hrr : read_ranking w = .ok r := by
      simp only [read_ranking, hrkid, hfr]
    have hfv1 : find_review w.reviews r1.id = some r1 := by
      rw [hrevs, find_review, List.find?_cons_of_neg _ (by simp [Ne.symm hne]),
          List.find?_cons_of_pos _ (by simp)]
    have hrv1 : read_review w w.session.critic1_review_id = .ok r1 := by
      simp only [read_review, hid1, hfv1]
    have hfv2 : find_review w.reviews r2.id = some r2 := by
      rw [hrevs, find_review, List.find?_cons_of_pos _ (by simp)]
    have hrv2 : read_review w w.session.critic2_review_id = .ok r2 := by
      simp only [read_review, hid2, hfv2]
    have hrefine : refine_code w inp = .ok
        ({ w with
            codes := { id := w.nextId, request_id := w.request.id,
                       session_id := w.session.id,
                       generated_code := inp.genCode,
                       explanation :=
                         if genErrorSentinel.isPrefixOf inp.genCode.toList
                         then "REFINEMENT FAILED: " ++ inp.genExpl
                         else inp.genExpl,
                       version := c.version + 1 } :: w.codes,
            nextId := w.nextId + 1 },
         { id := w.nextId, request_id := w.request.id, session_id := w.session.id,
           generated_code := inp.genCode,
           explanation :=
             if genErrorSentinel.isPrefixOf inp.genCode.toList
             then "REFINEMENT FAILED: " ++ inp.genExpl
             else inp.genExpl,
           version := c.version + 1 }) := by
      simp only [refine_code, hrcc, hrr, hrv1, hrv2, bind, Except.bind]
    refine ⟨{ w with
              codes := { id := w.nextId, request_id := w.request.id,
                         session_id := w.session.id,
                         generated_code := inp.genCode,
                         explanation :=
                           if genErrorSentinel.isPrefixOf inp.genCode.toList
                           then "REFINEMENT FAILED: " ++ inp.genExpl
                           else inp.genExpl,
                         version := c.version + 1 } :: w.codes,
              nextId := w.nextId + 1 },
            { id := w.nextId, request_id := w.request.id, session_id := w.session.id,
              generated_code := inp.genCode,
              explanation :=
                if genErrorSentinel.isPrefixOf inp.genCode.toList
                then "REFINEMENT FAILED: " ++ inp.genExpl
                else inp.genExpl,
              version := c.version + 1 },
            ?_, rfl, ?_, rfl, rfl, rfl, rfl, rfl, rfl, rfl⟩
    · simp only [run_iteration, hcid, hrefine]
    · have := hInv.head_version c rest hcodes
      simp only [this]

/-- One full loop body preserves the invariant and never fails, provided the
loop guard held on entry. -/
lemma run_iteration_inv (w : WorldState) (inp : IterInput)
    (hInv : LoopInv w)
    (hguard : w.session.refinement_iterations < w.session.max_iterations) :
    ∃ w2 stopped, run_iteration w inp = .ok (w2, stopped) ∧ LoopInv w2 ∧
      w2.session.max_iterations = w.session.max_iterations ∧
      (stopped = true → w2.session.status = GenerationStatus.completed ∧
        w2.request.status = GenerationStatus.completed) ∧
      (stopped = false → w2.session.status = GenerationStatus.generating ∧
        w2.session.refinement_iterations = w.session.refinement_iterations + 1) := by
  obtain ⟨w1, code, hrun, hcodes1, hver, hcodeid, hsess, hreq, hrevs1, hrks1, hlog1, hnid⟩ :=
    gen_step_spec w inp hInv
  obtain ⟨r1, r2, rk, s1, s2, hr1, hr2, hrk1, hrk2, hrksess, hrkcode, hrkexpl, hrksc1,
          hrksc2, hrkplan, hcodes2, hrevs2, hrkgs, hcur, hc1, hc2, hrkid, hmax, hlogeq,
          hs1st, hs1it, hs1mx, hs2st, hs2it, hs2mx, hstopeq, hdisj⟩ :=
    iteration_rest_spec w1 code inp
  refine ⟨(iteration_rest w1 code inp).1, (iteration_rest w1 code inp).2, ?_, ?_, ?_, ?_, ?_⟩
  · rw [hrun, Prod.mk.eta]
  · constructor
    · -- log_ok
      intro s hs hnc hnf
      rw [hlogeq, hlog1] at hs
      simp only [List.mem_cons] at hs
      rcases hs with hs | hs | hs | hs
      · subst hs
        rcases hdisj with ⟨_, hst, _, _⟩ | ⟨_, hst, _, hit, hbound⟩
        · exact absurd hst hnc
        · rw [hst] at hnc hnf
          rw [hit, hmax, hsess]
          rw [hsess] at hbound
          omega
      · subst hs
        rw [hs2it, hs2mx, hsess]
        exact hguard
      · subst hs
        rw [hs1it, hs1mx, hsess]
        exact hguard
      · exact hInv.log_ok s hs hnc hnf
    · -- versions_ok
      rw [hcodes2, hcodes1, List.reverse_cons, List.map_append, hInv.versions_ok,
          List.length_cons, List.range'_concat]
      simp [hver]
      omega
    · -- head_version
      intro c' rest' heq
      rw [hcodes2, hcodes1] at heq ⊢
      injection heq with h1 h2
      rw [← h1, hver, List.length_cons]
    · -- sync
      intro hcm
      rcases hdisj with ⟨_, _, hrq, _⟩ | ⟨_, hst, _, _, _⟩
      · exact hrq
      · rw [hst] at hcm
        exact absurd hcm (by simp)
    · -- cur_none
      intro h
      rw [hcur] at h
      exact absurd h (by simp)
    · -- cur_some
      intro cid hc
      rw [hcur] at hc
      have hcid2 : code.id = cid := by injection hc
      refine ⟨⟨code, w.codes, by rw [hcodes2, hcodes1], hcid2⟩,
              ⟨rk, w.rankings, by rw [hrkgs, hrks1], hrkid⟩,
              ⟨r2, r1, w.reviews, by rw [hrevs2, hrevs1], hc1, hc2, ?_⟩⟩
      rw [hr1, hr2, make_critic_review_id, make_critic_review_id]
      omega
  · rw [hmax, hsess]
  · intro hstop
    rcases hdisj with ⟨_, hst, hrq, _⟩ | ⟨h2f, _, _, _, _⟩
    · exact ⟨hst, hrq⟩
    · rw [h2f] at hstop
      exact absurd hstop (by simp)
  · intro hcont
    rcases hdisj with ⟨h2t, _, _, _⟩ | ⟨_, hst, _, hit, _⟩
    · rw [h2t] at hcont
      exact absurd hcont (by simp)
    · rw [hsess] at hit
      exact ⟨hst, hit⟩

/-- The fuelled loop never fails and preserves the invariant, when entered
with `fuel + refinement_iterations = max_iterations` (the form in which
`run_generation_cycle` enters it). -/
lemma run_loop_inv (env : Nat → IterInput) :
    ∀ (fuel : Nat) (w : WorldState), LoopInv w →
      fuel + w.session.refinement_iterations = w.session.max_iterations →
      ∃ w2, run_loop env fuel w = .ok w2 ∧ LoopInv w2 := by
  intro fuel
  induction fuel with
  | zero => exact fun w hInv _ => ⟨w, rfl, hInv⟩
  | succ fuel ih =>
    intro w hInv hfuel
    have hguard : w.session.refinement_iterations < w.session.max_iterations := by omega
    obtain ⟨w2, stopped, hrun, hInv2, hmax2, hstop, hcont⟩ :=
      run_iteration_inv w (env w.session.refinement_iterations) hInv hguard
    cases stopped with
    | true =>
      exact ⟨w2, by simp only [run_loop, hrun, if_true], hInv2⟩
    | false =>
      obtain ⟨_, hit⟩ := hcont rfl
      obtain ⟨w3, hrec, hInv3⟩ := ih w2 hInv2 (by omega)
      refine ⟨w3, ?_, hInv3⟩
      simp only [run_loop, hrun]
      exact hrec

/-- `_run_generation_cycle` from any invariant state with
`refinement_iterations ≤ max_iterations` terminates without error in a state
where both statuses are `completed` and the invariant still holds. -/
lemma run_generation_cycle_inv (env : Nat → IterInput) (w : WorldState)
    (hInv : LoopInv w)
    (hle : w.session.refinement_iterations ≤ w.session.max_iterations) :
    ∃ w2, run_generation_cycle env w = .ok w2 ∧ LoopInv w2 ∧
      w2.session.status = GenerationStatus.completed ∧
      w2.request.status = GenerationStatus.completed := by
  obtain ⟨w2, hloop, hInv2⟩ :=
    run_loop_inv env (w.session.max_iterations - w.session.refinement_iterations) w hInv
      (by omega)
  by_cases hs : w2.session.status = GenerationStatus.completed
  · refine ⟨w2, ?_, hInv2, hs, hInv2.sync hs⟩
    simp only [run_generation_cycle, hloop, if_pos hs]
  · refine ⟨persist_session (set_status_both w2 .completed), ?_, ?_, rfl, rfl⟩
    · simp only [run_generation_cycle, hloop, if_neg hs]
    · constructor
      · intro s hsm hnc hnf
        simp only [persist_session, set_status_both, List.mem_cons] at hsm
        rcases hsm with hsm | hsm
        · subst hsm
          exact absurd rfl hnc
        · exact hInv2.log_ok s hsm hnc hnf
      · exact hInv2.versions_ok
      · exact hInv2.head_version
      · intro _
        rfl
      · exact hInv2.cur_none
      · exact hInv2.cur_some

/-- The state persisted by `start_generation` before the cycle satisfies the
invariant. -/
lemma initial_world_inv (p : String) : LoopInv (initial_world p) := by
  constructor
  · intro s hs hnc hnf
    simp only [initial_world, List.mem_cons, List.not_mem_nil, or_false] at hs
    subst hs
    decide
  · rfl
  · intro c rest h
    exact absurd h (by simp [initial_world])
  · intro h
    simp [initial_world] at h
  · intro _
    rfl
  · intro cid h
    exact absurd h (by simp [initial_world])

/-! ## Helper lemmas about sentinels and clamping -/

lemma isPrefixOf_append_left {p l : List Char} (r : List Char)
    (h : p.isPrefixOf l = true) : p.isPrefixOf (l ++ r) = true := by
  rw [List.isPrefixOf_iff_prefix] at h ⊢
  exact h.trans (List.prefix_append l r)

lemma string_append_toList (a b : String) : (a ++ b).toList = a.toList ++ b.toList :=
  String.data_append a b

/-- The explanation of the ranking failure branch always contains the
sentinel the orchestrator and stopping policy key off. -/
lemma rank_sentinel_contains (m : String) :
    containsSub ("Error during ranking".toList)
      ("Error during ranking: " ++ m).toList = true := by
  apply containsSub_of_isPrefixOf
  rw [string_append_toList]
  exact isPrefixOf_append_left _ (by decide)

/-- A ranking whose explanation contains the sentinel stops the loop for
every session (second stop condition; the first may fire earlier, the
outcome is the same). -/
lemma should_stop_of_sentinel {rk : ReviewRanking} (sess : CodeGenerationSession)
    (h : containsSub ("Error during ranking".toList) rk.ranking_explanation.toList = true) :
    should_stop_refinement rk sess = true := by
  unfold should_stop_refinement
  by_cases h1 : sess.max_iterations - 1 ≤ sess.refinement_iterations
  · rw [if_pos h1]
  · rw [if_neg h1, if_pos h]

lemma clamp01_bounds (x : Rat) : 0 ≤ clamp01 x ∧ clamp01 x ≤ 1 := by
  unfold clamp01
  constructor
  · exact le_trans (by decide) (le_max_left _ _)
  · exact max_le (by decide) (le_trans (min_le_left _ _) (by decide))

lemma scoreOfMarker_none {marker t : List Char}
    (h : scoreToken marker t = none) : scoreOfMarker marker t = .ok (mkRat 1 2) := by
  simp only [scoreOfMarker, h]

/-- Inversion of the score-extraction step: on success both scores are the
clamped values, absent markers defaulting to 0.5. -/
lemma extract_scores_ok {t : List Char} {a b : Rat}
    (h : extract_scores t = .ok (a, b)) :
    (0 ≤ a ∧ a ≤ 1) ∧ (0 ≤ b ∧ b ≤ 1) ∧
    (scoreToken scoreMarker1 t = none → a = mkRat 1 2) ∧
    (scoreToken scoreMarker2 t = none → b = mkRat 1 2) := by
  unfold extract_scores at h
  cases h1 : scoreOfMarker scoreMarker1 t with
  | error e =>
    simp only [h1, bind, Except.bind] at h
    exact Except.noConfusion h
  | ok s1 =>
    cases h2 : scoreOfMarker scoreMarker2 t with
    | error e =>
      simp only [h1, h2, bind, Except.bind] at h
      exact Except.noConfusion h
    | ok s2 =>
      simp only [h1, h2, bind, Except.bind, Except.ok.injEq, Prod.mk.injEq] at h
      obtain ⟨ha, hb⟩ := h
      refine ⟨ha ▸ clamp01_bounds _, hb ▸ clamp01_bounds _, fun hm => ?_, fun hm => ?_⟩
      · have := scoreOfMarker_none hm
        rw [h1] at this
        injection this with this
        rw [← ha, this]
        decide
      · have := scoreOfMarker_none hm
        rw [h2] at this
        injection this with this
        rw [← hb, this]
        decide

/-- Inversion of a successful loop body without any invariant: the artifact
it created and its version rule, recovered from the success of the store
reads. -/
lemma run_iteration_ok_inv {w : WorldState} {inp : IterInput} {w2 : WorldState}
    {stopped : Bool} (h : run_iteration w inp = .ok (w2, stopped)) :
    ∃ w1 code, (w2, stopped) = iteration_rest w1 code inp ∧
      w1.codes = code :: w.codes ∧
      (w.session.current_code_id = none → code.version = 1) ∧
      (∀ cid, w.session.current_code_id = some cid →
        ∃ cur, find_code w.codes cid = some cur ∧ code.version = cur.version + 1) := by
  cases hcid : w.session.current_code_id with
  | none =>
    simp only [run_iteration, hcid, Except.ok.injEq] at h
    refine ⟨(generate_initial_code w inp).1, (generate_initial_code w inp).2,
            h.symm, rfl, fun _ => rfl, fun cid hc => ?_⟩
    exact Option.noConfusion hc
  | some cid =>
    simp only [run_iteration, hcid] at h
    cases hrc : read_current_code w with
    | error e =>
      simp only [show refine_code w inp = .error e by
            simp only [refine_code, hrc, bind, Except.bind]] at h
      exact Except.noConfusion h
    | ok c =>
      have hfc : find_code w.codes cid = some c := by
        have hthis := hrc
        unfold read_current_code at hthis
        cases hf : find_code w.codes cid with
        | none =>
          simp only [hcid, hf] at hthis
          exact Except.noConfusion hthis
        | some c0 =>
          simp only [hcid, hf, Except.ok.injEq] at hthis
          exact congrArg _ hthis
      cases hrr : read_ranking w with
      | error e =>
        simp only [show refine_code w inp = .error e by
              simp only [refine_code, hrc, hrr, bind, Except.bind]] at h
        exact Except.noConfusion h
      | ok r =>
        cases hrv1 : read_review w w.session.critic1_review_id with
        | error e =>
          simp only [show refine_code w inp = .error e by
                simp only [refine_code, hrc, hrr, hrv1, bind, Except.bind]] at h
          exact Except.noConfusion h
        | ok rv1 =>
          cases hrv2 : read_review w w.session.critic2_review_id with
          | error e =>
            simp only [show refine_code w inp = .error e by
                  simp only [refine_code, hrc, hrr, hrv1, hrv2, bind, Except.bind]] at h
            exact Except.noConfusion h
          | ok rv2 =>
            have hrefine : refine_code w inp = .ok
                ({ w with
                    codes := { id := w.nextId, request_id := w.request.id,
                               session_id := w.session.id,
                               generated_code := inp.genCode,
                               explanation :=
                                 if genErrorSentinel.isPrefixOf inp.genCode.toList
                                 then "REFINEMENT FAILED: " ++ inp.genExpl
                                 else inp.genExpl,
                               version := c.version + 1 } :: w.codes,
                    nextId := w.nextId + 1 },
                 { id := w.nextId, request_id := w.request.id, session_id := w.session.id,
                   generated_code := inp.genCode,
                   explanation :=
                     if genErrorSentinel.isPrefixOf inp.genCode.toList
                     then "REFINEMENT FAILED: " ++ inp.genExpl
                     else inp.genExpl,
                   version := c.version + 1 }) := by
              simp only [refine_code, hrc, hrr, hrv1, hrv2, bind, Except.bind]
            simp only [hrefine, Except.ok.injEq] at h
            refine ⟨_, _, h.symm, rfl, fun hn => ?_, fun cid2 hc2 => ?_⟩
            · exact Option.noConfusion hn
            · injection hc2 with hc2
              exact ⟨c, hc2 ▸ hfc, rfl⟩

/-! ## Claims -/

/-- Claim C1: `_should_stop_refinement` evaluates its three stop conditions in
this fixed priority order: stop when `refinement_iterations >=
max_iterations - 1`; otherwise stop when the ranking explanation contains the
ranking-failure sentinel; otherwise stop exactly when both critic scores are
below 0.3; otherwise continue.  With iteration 2 and max 3 it stops whatever
the ranking says; with iteration 0, max 3 and scores (0.8, 0.6) it continues;
with iteration 0, max 3 and scores (0.2, 0.1) it stops. -/
theorem claim_C1 (r : ReviewRanking) (s : CodeGenerationSession) :
    (s.max_iterations - 1 ≤ s.refinement_iterations →
      should_stop_refinement r s = true) ∧
    (s.refinement_iterations < s.max_iterations - 1 →
      containsSub ("Error during ranking".toList) r.ranking_explanation.toList = true →
      should_stop_refinement r s = true) ∧
    (s.refinement_iterations < s.max_iterations - 1 →
      containsSub ("Error during ranking".toList) r.ranking_explanation.toList = false →
      (should_stop_refinement r s = true ↔
        (r.critic1_score < mkRat 3 10 ∧ r.critic2_score < mkRat 3 10))) ∧
    (∀ r2 : ReviewRanking, ∀ s2 : CodeGenerationSession,
      s2.refinement_iterations = 2 → s2.max_iterations = 3 →
      should_stop_refinement r2 s2 = true) ∧
    should_stop_refinement
      { id := 0, session_id := 0, code_id := 0, critic1_review_id := 0,
        critic2_review_id := 0, ranking_explanation := "",
        critic1_score := mkRat 8 10, critic2_score := mkRat 6 10,
        incorporation_plan := "" }
      { id := 0, request_id := 0, refinement_iterations := 0, max_iterations := 3 }
      = false ∧
    should_stop_refinement
      { id := 0, session_id := 0, code_id := 0, critic1_review_id := 0,
        critic2_review_id := 0, ranking_explanation := "",
        critic1_score := mkRat 2 10, critic2_score := mkRat 1 10,
        incorporation_plan := "" }
      { id := 0, request_id := 0, refinement_iterations := 0, max_iterations := 3 }
      = true := by
  refine ⟨?_, ?_, ?_, ?_, by decide, by decide⟩
  · intro h
    unfold should_stop_refinement
    rw [if_pos h]
  · intro h1 h2
    unfold should_stop_refinement
    rw [if_neg (by omega), if_pos h2]
  · intro h1 h2
    unfold should_stop_refinement
    rw [if_neg (by omega), if_neg (by simp only [h2]; simp)]
    by_cases hb : r.critic1_score < mkRat 3 10 ∧ r.critic2_score < mkRat 3 10
    · rw [if_pos hb]
      simp [hb]
    · rw [if_neg hb]
      simp [hb]
  · intro r2 s2 h1 h2
    unfold should_stop_refinement
    rw [h1, h2, if_pos (by omega)]

/-- Claim C1 witness: the three stop conditions exercised at concrete
inputs. -/
theorem claim_C1_witness :
    should_stop_refinement
      { id := 0, session_id := 0, code_id := 0, critic1_review_id := 0,
        critic2_review_id := 0, ranking_explanation := "",
        critic1_score := mkRat 9 10, critic2_score := mkRat 9 10,
        incorporation_plan := "" }
      { id := 0, request_id := 0, refinement_iterations := 2, max_iterations := 3 }
      = true ∧
    should_stop_refinement
      { id := 0, session_id := 0, code_id := 0, critic1_review_id := 0,
        critic2_review_id := 0,
        ranking_explanation := "Error during ranking: boom",
        critic1_score := mkRat 9 10, critic2_score := mkRat 9 10,
        incorporation_plan := "" }
      { id := 0, request_id := 0, refinement_iterations := 0, max_iterations := 3 }
      = true ∧
    (should_stop_refinement
      { id := 0, session_id := 0, code_id := 0, critic1_review_id := 0,
        critic2_review_id := 0, ranking_explanation := "",
        critic1_score := mkRat 2 10, critic2_score := mkRat 1 10,
        incorporation_plan := "" }
      { id := 0, request_id := 0, refinement_iterations := 0, max_iterations := 3 }
      = true ↔ (mkRat 2 10 < mkRat 3 10 ∧ mkRat 1 10 < mkRat 3 10)) :=
  ⟨(claim_C1 _ _).1 (by decide),
   (claim_C1 _ _).2.1 (by decide) (by decide),
   (claim_C1 _ _).2.2.1 (by decide) (by decide)⟩

/-- Claim C7: severity extraction always lands in [1,5]; it returns the
default 3 when the lowered text has no occurrence of `severity` followed
(eventually) by a digit, and otherwise the first captured digit clamped to
[1,5]; on text containing `Severity: 7` it yields 5. -/
theorem claim_C7 (s : String) :
    (1 ≤ extract_severity s ∧ extract_severity s ≤ 5) ∧
    (¬ HasSevDigit (lowerStr s) → extract_severity s = 3) ∧
    (HasSevDigit (lowerStr s) →
      ∃ d, sevSearch (lowerStr s) = some d ∧
        extract_severity s = max 1 (min 5 (digitVal d))) ∧
    extract_severity "Severity: 7" = 5 := by
  refine ⟨?_, ?_, ?_, by decide⟩
  · cases h : sevSearch (lowerStr s) with
    | none =>
      rw [extract_severity_of_none h]
      exact ⟨by norm_num, by norm_num⟩
    | some d =>
      rw [extract_severity_of_some h]
      exact ⟨le_max_left _ _, max_le (by norm_num) (min_le_left _ _)⟩
  · intro h
    exact extract_severity_of_none ((sevSearch_eq_none_iff _).mpr h)
  · intro h
    cases hs : sevSearch (lowerStr s) with
    | none => exact absurd h ((sevSearch_eq_none_iff _).mp hs)
    | some d => exact ⟨d, rfl, extract_severity_of_some hs⟩

/-- Claim C7 witness: the default and the capture case at concrete texts. -/
theorem claim_C7_witness :
    extract_severity "all good here" = 3 ∧
    (∃ d, sevSearch (lowerStr "Severity: 7") = some d ∧
      extract_severity "Severity: 7" = max 1 (min 5 (digitVal d))) :=
  ⟨(claim_C7 "all good here").2.1 ((sevSearch_eq_none_iff _).mp (by decide)),
   (claim_C7 "Severity: 7").2.2.1 ⟨0, by decide, by decide⟩⟩

/-- Claim C9: `AnalyzeConflicts` (modelled from the spec, absent from the
backend sources) maps disagreement-keyword hits to fixed confidences and
decisions — no hit in either critic text gives 0.9, exactly one gives 0.7,
hits in both give 0.5 — and the strategy is always the fixed label
`consensus_based`. -/
theorem claim_C9 (coderText c1 c2 : String) :
    (analyze_conflicts coderText c1 c2).strategy = "consensus_based" ∧
    (has_disagreement c1 = false → has_disagreement c2 = false →
      (analyze_conflicts coderText c1 c2).confidence = mkRat 9 10 ∧
      (analyze_conflicts coderText c1 c2).decision
        = "general agreement, follow generator with minor adjustments") ∧
    (has_disagreement c1 ≠ has_disagreement c2 →
      (analyze_conflicts coderText c1 c2).confidence = mkRat 7 10 ∧
      (analyze_conflicts coderText c1 c2).decision
        = "mixed feedback, prioritize generator but weigh critic input") ∧
    (has_disagreement c1 = true → has_disagreement c2 = true →
      (analyze_conflicts coderText c1 c2).confidence = mkRat 5 10 ∧
      (analyze_conflicts coderText c1 c2).decision
        = "significant disagreement, recommend human review") := by
  cases h1 : has_disagreement c1 <;> cases h2 : has_disagreement c2 <;>
    simp [analyze_conflicts, h1, h2]

/-- Claim C9 witness: the zero-conflict and two-conflict cases at concrete
critic texts. -/
theorem claim_C9_witness :
    ((analyze_conflicts "code" "looks good" "fine work").confidence = mkRat 9 10 ∧
      (analyze_conflicts "code" "looks good" "fine work").decision
        = "general agreement, follow generator with minor adjustments") ∧
    ((analyze_conflicts "code" "this is wrong" "i disagree").confidence = mkRat 5 10 ∧
      (analyze_conflicts "code" "this is wrong" "i disagree").decision
        = "significant disagreement, recommend human review") :=
  ⟨(claim_C9 "code" "looks good" "fine work").2.1 (by decide) (by decide),
   (claim_C9 "code" "this is wrong" "i disagree").2.2.2 (by decide) (by decide)⟩

/-- Claim C8 counterexample: on the response text `CRITIC 2 SCORE: ..` the
`CRITIC 1 SCORE:` marker is absent, yet the first returned score is 0.1, not
the claimed default 0.5 — the matched `..` token makes `float` raise, and the
enclosing handler returns the ranking-failure values instead of the
per-marker defaults. -/
theorem claim_C8_counterexample :
    scoreToken scoreMarker1 ("CRITIC 2 SCORE: ..".toList) = none ∧
    (rankFromResponse "CRITIC 2 SCORE: ..").critic1_score = mkRat 1 10 ∧
    mkRat 1 10 ≠ mkRat 1 2 := by
  decide

/-- Claim C8 (amended): the extraction inside the ranking call never escapes
it — both returned scores always lie in [0,1]; when the score extraction
completes, a score whose marker is absent defaults to 0.5, so text missing
both markers yields (0.5, 0.5), and `CRITIC 1 SCORE: 1.4` yields a first
score clamped to 1.0; but when a matched digits-and-dots token is not a valid
float, the `float` conversion raises inside the `try` block and the function
falls back to the ranking-failure result with both scores 0.1 — in that case
a score can be 0.1 even though its own marker is absent. -/
theorem claim_C8 (t : String) :
    (0 ≤ (rankFromResponse t).critic1_score ∧ (rankFromResponse t).critic1_score ≤ 1) ∧
    (0 ≤ (rankFromResponse t).critic2_score ∧ (rankFromResponse t).critic2_score ≤ 1) ∧
    (∀ a b, extract_scores t.toList = .ok (a, b) →
      (rankFromResponse t).critic1_score = a ∧
      (rankFromResponse t).critic2_score = b ∧
      (scoreToken scoreMarker1 t.toList = none → a = mkRat 1 2) ∧
      (scoreToken scoreMarker2 t.toList = none → b = mkRat 1 2)) ∧
    (∀ m, extract_scores t.toList = .error m →
      (rankFromResponse t).critic1_score = mkRat 1 10 ∧
      (rankFromResponse t).critic2_score = mkRat 1 10 ∧
      containsSub ("Error during ranking".toList)
        (rankFromResponse t).explanation.toList = true) ∧
    (rankFromResponse "CRITIC 1 SCORE: 1.4").critic1_score = mkRat 1 1 := by
  refine ⟨?_, ?_, ?_, ?_, by decide⟩
  · cases h : extract_scores t.toList with
    | error m =>
      simp only [rankFromResponse, h]
      exact ⟨show (0:Rat) ≤ mkRat 1 10 by decide, show mkRat 1 10 ≤ (1:Rat) by decide⟩
    | ok p =>
      obtain ⟨pa, pb⟩ := p
      obtain ⟨ha, _, _, _⟩ := extract_scores_ok h
      simp only [rankFromResponse, h]
      exact ha
  · cases h : extract_scores t.toList with
    | error m =>
      simp only [rankFromResponse, h]
      exact ⟨show (0:Rat) ≤ mkRat 1 10 by decide, show mkRat 1 10 ≤ (1:Rat) by decide⟩
    | ok p =>
      obtain ⟨pa, pb⟩ := p
      obtain ⟨_, hb, _, _⟩ := extract_scores_ok h
      simp only [rankFromResponse, h]
      exact hb
  · intro a b h
    obtain ⟨_, _, hm1, hm2⟩ := extract_scores_ok h
    refine ⟨by simp only [rankFromResponse, h], by simp only [rankFromResponse, h], hm1, hm2⟩
  · intro m h
    refine ⟨by simp only [rankFromResponse, h]; rfl,
            by simp only [rankFromResponse, h]; rfl, ?_⟩
    simp only [rankFromResponse, h]
    exact rank_sentinel_contains m

/-- Claim C8 witness: the both-markers-absent default exercised through the
amended theorem. -/
theorem claim_C8_witness :
    (rankFromResponse "no scores in here").critic1_score = mkRat 1 2 ∧
    (rankFromResponse "no scores in here").critic2_score = mkRat 1 2 := by
  have h := (claim_C8 "no scores in here").2.2.1
    (clamp01 (mkRat 1 2)) (clamp01 (mkRat 1 2)) rfl
  exact ⟨h.1.trans (h.2.2.1 (by decide)), h.2.1.trans (h.2.2.2 (by decide))⟩

/-- Claim C6: when the ranking call fails internally,
`rank_reviews_and_plan` does not raise — it returns 0.1 for both critic
scores and an explanation containing the fixed marker `Error during ranking`;
the orchestrator persists that ranking and proceeds to the stop check, which
stops the loop (the session completes instead of failing). -/
theorem claim_C6 (m : String) (w : WorldState) (inp : IterInput)
    (hcid : w.session.current_code_id = none)
    (hrank : inp.ranking = RankOutcome.err m) :
    (rank_reviews_and_plan (.err m)).critic1_score = mkRat 1 10 ∧
    (rank_reviews_and_plan (.err m)).critic2_score = mkRat 1 10 ∧
    containsSub ("Error during ranking".toList)
      (rank_reviews_and_plan (.err m)).explanation.toList = true ∧
    (∀ sess : CodeGenerationSession, ∀ rk : ReviewRanking,
      rk.ranking_explanation = (rank_reviews_and_plan (.err m)).explanation →
      should_stop_refinement rk sess = true) ∧
    (∃ w2, run_iteration w inp = .ok (w2, true) ∧
      (∃ rk rest, w2.rankings = rk :: rest ∧
        rk.critic1_score = mkRat 1 10 ∧ rk.critic2_score = mkRat 1 10 ∧
        containsSub ("Error during ranking".toList)
          rk.ranking_explanation.toList = true) ∧
      w2.session.status = GenerationStatus.completed ∧
      w2.session.status ≠ GenerationStatus.failed) := by
  have hsent : containsSub ("Error during ranking".toList)
      (rank_reviews_and_plan (.err m)).explanation.toList = true :=
    rank_sentinel_contains m
  refine ⟨rfl, rfl, hsent, fun sess rk hx => ?_, ?_⟩
  · apply should_stop_of_sentinel
    rw [hx]
    exact hsent
  · have hrun : run_iteration w inp
        = .ok (iteration_rest (generate_initial_code w inp).1
                (generate_initial_code w inp).2 inp) := by
      simp only [run_iteration, hcid]
    obtain ⟨r1, r2, rk, s1, s2, hr1, hr2, hrk1, hrk2, _, _, hrkexpl, hrksc1, hrksc2, _,
            _, _, hrkgs, _, _, _, _, _, _, _, _, _, _, _, _, hstopeq, hdisj⟩ :=
      iteration_rest_spec (generate_initial_code w inp).1 (generate_initial_code w inp).2 inp
    have hsent2 : containsSub ("Error during ranking".toList)
        rk.ranking_explanation.toList = true := by
      rw [hrkexpl, hrank]
      exact hsent
    have hstop : (iteration_rest (generate_initial_code w inp).1
        (generate_initial_code w inp).2 inp).2 = true := by
      rw [hstopeq]
      exact should_stop_of_sentinel _ hsent2
    rcases hdisj with ⟨_, hst, _, _⟩ | ⟨h2f, _, _, _, _⟩
    · refine ⟨(iteration_rest (generate_initial_code w inp).1
          (generate_initial_code w inp).2 inp).1, by rw [hrun, ← hstop],
        ⟨rk, _, hrkgs, hrksc1.trans (by rw [hrank]; rfl), hrksc2.trans (by rw [hrank]; rfl),
          hsent2⟩, hst, by simp [hst]⟩
    · rw [h2f] at hstop
      exact absurd hstop (by simp)

/-- Claim C6 witness: the failure values and the stopped iteration at a
concrete failing ranking call. -/
theorem claim_C6_witness :
    (rank_reviews_and_plan (.err "rate limit")).critic1_score = mkRat 1 10 ∧
    (rank_reviews_and_plan (.err "rate limit")).critic2_score = mkRat 1 10 ∧
    containsSub ("Error during ranking".toList)
      (rank_reviews_and_plan (.err "rate limit")).explanation.toList = true := by
  have h := claim_C6 "rate limit" (initial_world "p")
    { genCode := "c", genExpl := "e", critic1 := .ok "r", critic2 := .ok "r",
      ranking := .err "rate limit" } rfl rfl
  exact ⟨h.1, h.2.1, h.2.2.1⟩

/-- Claim C10: in every loop iteration exactly two critic reviews are created
and persisted, one per critic identity, whatever the outcomes of the
underlying model calls: `get_critic_review` never raises, on failure it
returns a review text `Error during review: …` with no suggestions, severity
5 and confidence 0.1, and the orchestrator stores the result and feeds it to
the ranking like any successful review. -/
theorem claim_C10 (m : String) (w : WorldState) (inp : IterInput)
    (hcid : w.session.current_code_id = none) :
    (get_critic_review (.err m)).reviewText = "Error during review: " ++ m ∧
    ("Error during review:".toList).isPrefixOf
      (get_critic_review (.err m)).reviewText.toList = true ∧
    (get_critic_review (.err m)).suggestions = [] ∧
    (get_critic_review (.err m)).severity = 5 ∧
    (get_critic_review (.err m)).confidence = mkRat 1 10 ∧
    (∃ w2 stopped r1 r2 rk rest,
      run_iteration w inp = .ok (w2, stopped) ∧
      w2.reviews = r2 :: r1 :: w.reviews ∧
      r1.critic_type = FeedbackType.critic1 ∧ r1.llm_model = "gpt-4o" ∧
      r2.critic_type = FeedbackType.critic2 ∧ r2.llm_model = "deepseek-r1" ∧
      r1.review_text = (get_critic_review inp.critic1).reviewText ∧
      r1.suggestions = (get_critic_review inp.critic1).suggestions ∧
      r1.severity_rating = (get_critic_review inp.critic1).severity ∧
      r1.confidence_score = (get_critic_review inp.critic1).confidence ∧
      r2.review_text = (get_critic_review inp.critic2).reviewText ∧
      r2.suggestions = (get_critic_review inp.critic2).suggestions ∧
      r2.severity_rating = (get_critic_review inp.critic2).severity ∧
      r2.confidence_score = (get_critic_review inp.critic2).confidence ∧
      w2.rankings = rk :: rest ∧
      rk.critic1_review_id = r1.id ∧ rk.critic2_review_id = r2.id) := by
  refine ⟨rfl, ?_, rfl, rfl, rfl, ?_⟩
  · show ("Error during review:".toList).isPrefixOf
      ("Error during review: " ++ m).toList = true
    rw [string_append_toList]
    exact isPrefixOf_append_left _ (by decide)
  · have hrun : run_iteration w inp
        = .ok (iteration_rest (generate_initial_code w inp).1
                (generate_initial_code w inp).2 inp) := by
      simp only [run_iteration, hcid]
    obtain ⟨r1, r2, rk, s1, s2, hr1, hr2, hrk1, hrk2, _, _, _, _, _, _,
            _, hrevs2, hrkgs, _, _, _, _, _, _, _, _, _, _, _, _, _, _⟩ :=
      iteration_rest_spec (generate_initial_code w inp).1 (generate_initial_code w inp).2 inp
    subst hr1
    subst hr2
    exact ⟨_, _, _, _, rk, _, by rw [hrun], hrevs2, rfl, rfl, rfl, rfl,
           rfl, rfl, rfl, rfl, rfl, rfl, rfl, rfl, hrkgs, hrk1, hrk2⟩

/-- Claim C10 witness: the failure review values and the two persisted
reviews of a concrete iteration with one failing critic. -/
theorem claim_C10_witness :
    (get_critic_review (.err "timeout")).reviewText = "Error during review: timeout" ∧
    (get_critic_review (.err "timeout")).severity = 5 ∧
    (get_critic_review (.err "timeout")).confidence = mkRat 1 10 := by
  have h := claim_C10 "timeout" (initial_world "p")
    { genCode := "c", genExpl := "e", critic1 := .err "timeout", critic2 := .ok "r",
      ranking := .ok "R" } rfl
  exact ⟨h.1, h.2.2.2.1, h.2.2.2.2.1⟩

/-- The environment in which every critic call of every iteration fails. -/
def bothCriticsFailEnv : Nat → IterInput := fun _ =>
  { genCode := "x", genExpl := "e", critic1 := .err "boom1", critic2 := .err "boom2",
    ranking := .ok "R" }

/-- Claim C2 counterexample: a run in which both critic calls fail in every
iteration nevertheless ends with status `completed` (never `failed` at any
persisted snapshot) and with three Ranking records created — the code turns
each failed critic call into an error review and proceeds, contradicting the
claimed transition to `failed` without a Ranking. -/
theorem claim_C2_counterexample :
    (run_generation_cycle bothCriticsFailEnv (initial_world "p")).toOption.map
        (fun w => w.session.status) = some GenerationStatus.completed ∧
    (run_generation_cycle bothCriticsFailEnv (initial_world "p")).toOption.map
        (fun w => w.rankings.length) = some 3 ∧
    (run_generation_cycle bothCriticsFailEnv (initial_world "p")).toOption.map
        (fun w => decide (∀ s ∈ w.sessionLog, s.status ≠ GenerationStatus.failed))
      = some true := by
  decide

/-- Claim C2 (amended): when both critic calls of an iteration fail, the
iteration still proceeds: `get_critic_review` converts each failure into an
error review (text `Error during review: …`, severity 5, confidence 0.1, no
suggestions), both are persisted, a Ranking over them is still created, and
the session does not transition to `failed` on account of the critic
failures — it ends the iteration `completed` (stop) or `generating`
(continue). -/
theorem claim_C2 (m1 m2 : String) (w : WorldState) (inp : IterInput)
    (hcid : w.session.current_code_id = none)
    (hc1 : inp.critic1 = .err m1) (hc2 : inp.critic2 = .err m2) :
    ∃ w2 stopped r1 r2 rk rest,
      run_iteration w inp = .ok (w2, stopped) ∧
      w2.reviews = r2 :: r1 :: w.reviews ∧
      r1.review_text = "Error during review: " ++ m1 ∧ r1.suggestions = [] ∧
      r1.severity_rating = 5 ∧ r1.confidence_score = mkRat 1 10 ∧
      r2.review_text = "Error during review: " ++ m2 ∧ r2.suggestions = [] ∧
      r2.severity_rating = 5 ∧ r2.confidence_score = mkRat 1 10 ∧
      w2.rankings = rk :: rest ∧
      w2.session.status ≠ GenerationStatus.failed ∧
      (w2.session.status = GenerationStatus.completed ∨
        w2.session.status = GenerationStatus.generating) := by
  have hrun : run_iteration w inp
      = .ok (iteration_rest (generate_initial_code w inp).1
              (generate_initial_code w inp).2 inp) := by
    simp only [run_iteration, hcid]
  obtain ⟨r1, r2, rk, s1, s2, hr1, hr2, _, _, _, _, _, _, _, _,
          _, hrevs2, hrkgs, _, _, _, _, _, _, _, _, _, _, _, _, _, hdisj⟩ :=
    iteration_rest_spec (generate_initial_code w inp).1 (generate_initial_code w inp).2 inp
  subst hr1
  subst hr2
  refine ⟨_, _, _, _, rk, _, by rw [hrun], hrevs2,
          by rw [hc1]; rfl, by rw [hc1]; rfl, by rw [hc1]; rfl, by rw [hc1]; rfl,
          by rw [hc2]; rfl, by rw [hc2]; rfl, by rw [hc2]; rfl, by rw [hc2]; rfl,
          hrkgs, ?_, ?_⟩
  · rcases hdisj with ⟨_, hst, _, _⟩ | ⟨_, hst, _, _, _⟩ <;> simp [hst]
  · rcases hdisj with ⟨_, hst, _, _⟩ | ⟨_, hst, _, _, _⟩
    · exact Or.inl hst
    · exact Or.inr hst

/-- Claim C2 witness (of the amended claim): a concrete iteration in which
both critics fail. -/
theorem claim_C2_witness :
    ∃ w2 stopped r1 r2 rk rest,
      run_iteration (initial_world "p") (bothCriticsFailEnv 0) = .ok (w2, stopped) ∧
      w2.reviews = r2 :: r1 :: (initial_world "p").reviews ∧
      r1.review_text = "Error during review: " ++ "boom1" ∧ r1.suggestions = [] ∧
      r1.severity_rating = 5 ∧ r1.confidence_score = mkRat 1 10 ∧
      r2.review_text = "Error during review: " ++ "boom2" ∧ r2.suggestions = [] ∧
      r2.severity_rating = 5 ∧ r2.confidence_score = mkRat 1 10 ∧
      w2.rankings = rk :: rest ∧
      w2.session.status ≠ GenerationStatus.failed ∧
      (w2.session.status = GenerationStatus.completed ∨
        w2.session.status = GenerationStatus.generating) :=
  claim_C2 "boom1" "boom2" (initial_world "p") (bothCriticsFailEnv 0) rfl rfl rfl

lemma iteration_rest_codes (w1 : WorldState) (code : GeneratedCode) (inp : IterInput) :
    (iteration_rest w1 code inp).1.codes = w1.codes := by
  simp only [iteration_rest]
  split <;> rfl

/-- Claim C3: over a whole run the artifact versions, in creation order, are
exactly `1, 2, …, n` with no gaps or repeats; each iteration creates a new
record on top of the untouched existing ones, with version 1 initially and
`previous version + 1` on refinement. -/
theorem claim_C3 (env : Nat → IterInput) (p : String) :
    (∀ w2, run_generation_cycle env (initial_world p) = .ok w2 →
      w2.codes.reverse.map GeneratedCode.version = List.range' 1 w2.codes.length) ∧
    (∀ w inp w2 stopped, run_iteration w inp = .ok (w2, stopped) →
      ∃ code, w2.codes = code :: w.codes ∧
        (w.session.current_code_id = none → code.version = 1) ∧
        (∀ cid, w.session.current_code_id = some cid →
          ∃ cur, find_code w.codes cid = some cur ∧
            code.version = cur.version + 1)) := by
  constructor
  · intro w2 h
    obtain ⟨w2', hc, hinv, _, _⟩ := run_generation_cycle_inv env (initial_world p)
      (initial_world_inv p) (Nat.zero_le _)
    rw [h] at hc
    injection hc with hc
    rw [hc]
    exact hinv.versions_ok
  · intro w inp w2 stopped h
    obtain ⟨w1, code, hpair, hcodes1, hv1, hvs⟩ := run_iteration_ok_inv h
    have hw2 : w2 = (iteration_rest w1 code inp).1 := congrArg Prod.fst hpair
    refine ⟨code, ?_, hv1, hvs⟩
    rw [hw2, iteration_rest_codes, hcodes1]

/-- An environment of successful agent calls used by the concrete runs. -/
def okEnv : Nat → IterInput := fun _ =>
  { genCode := "print(1)", genExpl := "done", critic1 := .ok "fine", critic2 := .ok "ok",
    ranking := .ok "CRITIC 1 SCORE: 0.6 CRITIC 2 SCORE: 0.7" }

/-- The final state of the concrete `okEnv` run. -/
def okRunWorld : WorldState :=
  match run_generation_cycle okEnv (initial_world "add") with
  | .ok w => w
  | .error e => e.2

/-- Claim C3 witness: the version sequence of the concrete run. -/
theorem claim_C3_witness :
    okRunWorld.codes.reverse.map GeneratedCode.version
      = List.range' 1 okRunWorld.codes.length :=
  (claim_C3 okEnv "add").1 okRunWorld rfl

/-- Claim C4: a run whose loop exits without an escaping exception (stop
signal or iteration exhaustion) always ends with both Session and Request
persisted as `completed` — exhaustion is success; when `start_generation`
propagates an error, its handler persists `failed` on both; hence a run ends
in a terminal state, never in between. -/
theorem claim_C4 (env : Nat → IterInput) (p : String) :
    (∃ w2, run_generation_cycle env (initial_world p) = .ok w2 ∧
      w2.session.status = GenerationStatus.completed ∧
      w2.request.status = GenerationStatus.completed) ∧
    (∀ w e, (failure_handler w e).1.session.status = GenerationStatus.failed ∧
      (failure_handler w e).1.request.status = GenerationStatus.failed ∧
      (∃ s rest, (failure_handler w e).1.sessionLog = s :: rest ∧
        s.status = GenerationStatus.failed) ∧
      (failure_handler w e).2 = e) ∧
    (∀ res err, start_generation env p = (res, err) →
      res.session.status = GenerationStatus.completed ∨
      res.session.status = GenerationStatus.failed) := by
  obtain ⟨w2, hc, hinv, hs, hr⟩ := run_generation_cycle_inv env (initial_world p)
    (initial_world_inv p) (Nat.zero_le _)
  refine ⟨⟨w2, hc, hs, hr⟩, fun w e => ⟨rfl, rfl, ⟨_, _, rfl, rfl⟩, rfl⟩, ?_⟩
  intro res err h
  simp only [start_generation, hc] at h
  injection h with h1 h2
  rw [← h1]
  exact Or.inl hs

/-- Claim C4 witness: terminality of the concrete run. -/
theorem claim_C4_witness :
    (start_generation okEnv "add").1.session.status = GenerationStatus.completed ∨
    (start_generation okEnv "add").1.session.status = GenerationStatus.failed :=
  (claim_C4 okEnv "add").2.2 (start_generation okEnv "add").1
    (start_generation okEnv "add").2 rfl

/-- Claim C5: in every state the workflow persists, a non-terminal status
(neither `completed` nor `failed`) implies
`refinement_iterations < max_iterations`. -/
theorem claim_C5 (env : Nat → IterInput) (p : String) (w2 : WorldState)
    (h : run_generation_cycle env (initial_world p) = .ok w2) :
    ∀ s ∈ w2.sessionLog, s.status ≠ GenerationStatus.completed →
      s.status ≠ GenerationStatus.failed →
      s.refinement_iterations < s.max_iterations := by
  obtain ⟨w2', hc, hinv, _, _⟩ := run_generation_cycle_inv env (initial_world p)
    (initial_world_inv p) (Nat.zero_le _)
  rw [h] at hc
  injection hc with hc
  rw [hc]
  exact hinv.log_ok

/-- A concrete non-terminal persisted snapshot of the `okEnv` run (the
REFINING state of its last iteration). -/
def c5Snapshot : CodeGenerationSession :=
  okRunWorld.sessionLog.getD 1 { id := 0, request_id := 0 }

/-- Claim C5 witness: the iteration bound at a concrete non-terminal
persisted snapshot of the concrete run. -/
theorem claim_C5_witness :
    c5Snapshot.refinement_iterations < c5Snapshot.max_iterations :=
  claim_C5 okEnv "add" okRunWorld rfl c5Snapshot (by decide) (by decide) (by decide)

end Mcrag
